import Mathlib

/-!
Verification of the frame-synchronized snapshot/command proxy fronted by the
JNI header `eisbot_proxy_JNIBWAPI.h`.  The header itself is declaration-only,
so the interface surface (names, parameter types, return types) is embedded
verbatim as data; the behavioural components (FrameSynchronizer,
EntitySnapshotStore, CommandQueue, TerrainModel, TypeCatalog) have no body in
the repository and are modelled from the specification.
-/

namespace JBW

/-- Java types appearing in the JNI header signatures. -/
inductive JType
  | jvoid
  | jint
  | jboolean
  | jstring
  | jintArray
  | jobjectT
  deriving DecidableEq, Repr

/-- The native method names declared in `eisbot_proxy_JNIBWAPI.h`
(overloads keep their mangled suffix exactly as in the header). -/
inductive JMethod
  | startClient
  | getGameFrame
  | getPlayerInfo
  | getPlayerUpdate
  | getResearchStatus
  | getUpgradeStatus
  | getUnits
  | getUnitTypes
  | getUnitTypeName
  | getTechTypes
  | getTechTypeName
  | getUpgradeTypes
  | getUpgradeTypeName
  | getWeaponTypes
  | getWeaponTypeName
  | getUnitSizeTypes
  | getUnitSizeTypeName
  | getBulletTypes
  | getBulletTypeName
  | getDamageTypes
  | getDamageTypeName
  | getExplosionTypes
  | getExplosionTypeName
  | getUnitCommandTypes
  | getUnitCommandTypeName
  | getOrderTypes
  | getOrderTypeName
  | analyzeTerrain
  | getMapWidth
  | getMapHeight
  | getMapName
  | getMapHash
  | getHeightData
  | getWalkableData
  | getBuildableData
  | getChokePoints
  | getRegions
  | getPolygon
  | getBaseLocations
  | attack__III
  | attack__II
  | build
  | buildAddon
  | train
  | morph
  | research
  | upgrade
  | setRallyPoint__III
  | setRallyPoint__II
  | move
  | patrol
  | holdPosition
  | stop
  | follow
  | gather
  | returnCargo
  | repair
  | burrow
  | unburrow
  | cloak
  | decloak
  | siege
  | unsiege
  | lift
  | land
  | load
  | unload
  | unloadAll__I
  | unloadAll__III
  | rightClick__III
  | rightClick__II
  | haltConstruction
  | cancelConstruction
  | cancelAddon
  | cancelTrain
  | cancelMorph
  | cancelResearch
  | cancelUpgrade
  | useTech__II
  | useTech__IIII
  | useTech__III
  | drawHealth
  | drawTargets
  | drawIDs
  | enableUserInput
  | enablePerfectInformation
  | setGameSpeed
  | drawBox
  | drawCircle
  | drawLine
  | drawDot
  | drawText
  | hasCreep
  | canBuildHere
  | printText
  | setCommandOptimizationLevel
  | isReplayM
  deriving DecidableEq, Repr

/-- One native method declaration of the header: its name, the parameter
types after the implicit `JNIEnv*, jobject` receiver pair, and its return
type. -/
structure JniDecl where
  name : JMethod
  params : List JType
  ret : JType
  deriving DecidableEq, Repr

set_option maxHeartbeats 1600000 in
open JType JMethod in
/-- The full list of declarations of `eisbot_proxy_JNIBWAPI.h`, in header
order.  Transcribed from the JNI signatures (`I` = jint, `Z` = jboolean,
`Ljava/lang/String;` = jstring, `[I` = jintArray, `V` = jvoid). -/
def headerDecls : List JniDecl :=
  [ ⟨startClient, [jobjectT], jvoid⟩
  , ⟨getGameFrame, [], jint⟩
  , ⟨getPlayerInfo, [], jintArray⟩
  , ⟨getPlayerUpdate, [jint], jintArray⟩
  , ⟨getResearchStatus, [jint], jintArray⟩
  , ⟨getUpgradeStatus, [jint], jintArray⟩
  , ⟨getUnits, [], jintArray⟩
  , ⟨getUnitTypes, [], jintArray⟩
  , ⟨getUnitTypeName, [jint], jstring⟩
  , ⟨getTechTypes, [], jintArray⟩
  , ⟨getTechTypeName, [jint], jstring⟩
  , ⟨getUpgradeTypes, [], jintArray⟩
  , ⟨getUpgradeTypeName, [jint], jstring⟩
  , ⟨getWeaponTypes, [], jintArray⟩
  , ⟨getWeaponTypeName, [jint], jstring⟩
  , ⟨getUnitSizeTypes, [], jintArray⟩
  , ⟨getUnitSizeTypeName, [jint], jstring⟩
  , ⟨getBulletTypes, [], jintArray⟩
  , ⟨getBulletTypeName, [jint], jstring⟩
  , ⟨getDamageTypes, [], jintArray⟩
  , ⟨getDamageTypeName, [jint], jstring⟩
  , ⟨getExplosionTypes, [], jintArray⟩
  , ⟨getExplosionTypeName, [jint], jstring⟩
  , ⟨getUnitCommandTypes, [], jintArray⟩
  , ⟨getUnitCommandTypeName, [jint], jstring⟩
  , ⟨getOrderTypes, [], jintArray⟩
  , ⟨getOrderTypeName, [jint], jstring⟩
  , ⟨analyzeTerrain, [], jvoid⟩
  , ⟨getMapWidth, [], jint⟩
  , ⟨getMapHeight, [], jint⟩
  , ⟨getMapName, [], jstring⟩
  , ⟨getMapHash, [], jstring⟩
  , ⟨getHeightData, [], jintArray⟩
  , ⟨getWalkableData, [], jintArray⟩
  , ⟨getBuildableData, [], jintArray⟩
  , ⟨getChokePoints, [], jintArray⟩
  , ⟨getRegions, [], jintArray⟩
  , ⟨getPolygon, [jint], jintArray⟩
  , ⟨getBaseLocations, [], jintArray⟩
  , ⟨attack__III, [jint, jint, jint], jvoid⟩
  , ⟨attack__II, [jint, jint], jvoid⟩
  , ⟨build, [jint, jint, jint, jint], jvoid⟩
  , ⟨buildAddon, [jint, jint], jvoid⟩
  , ⟨train, [jint, jint], jvoid⟩
  , ⟨morph, [jint, jint], jvoid⟩
  , ⟨research, [jint, jint], jvoid⟩
  , ⟨upgrade, [jint, jint], jvoid⟩
  , ⟨setRallyPoint__III, [jint, jint, jint], jvoid⟩
  , ⟨setRallyPoint__II, [jint, jint], jvoid⟩
  , ⟨move, [jint, jint, jint], jvoid⟩
  , ⟨patrol, [jint, jint, jint], jvoid⟩
  , ⟨holdPosition, [jint], jvoid⟩
  , ⟨stop, [jint], jvoid⟩
  , ⟨follow, [jint, jint], jvoid⟩
  , ⟨gather, [jint, jint], jvoid⟩
  , ⟨returnCargo, [jint], jvoid⟩
  , ⟨repair, [jint, jint], jvoid⟩
  , ⟨burrow, [jint], jvoid⟩
  , ⟨unburrow, [jint], jvoid⟩
  , ⟨cloak, [jint], jvoid⟩
  , ⟨decloak, [jint], jvoid⟩
  , ⟨siege, [jint], jvoid⟩
  , ⟨unsiege, [jint], jvoid⟩
  , ⟨lift, [jint], jvoid⟩
  , ⟨land, [jint, jint, jint], jvoid⟩
  , ⟨load, [jint, jint], jvoid⟩
  , ⟨unload, [jint, jint], jvoid⟩
  , ⟨unloadAll__I, [jint], jvoid⟩
  , ⟨unloadAll__III, [jint, jint, jint], jvoid⟩
  , ⟨rightClick__III, [jint, jint, jint], jvoid⟩
  , ⟨rightClick__II, [jint, jint], jvoid⟩
  , ⟨haltConstruction, [jint], jvoid⟩
  , ⟨cancelConstruction, [jint], jvoid⟩
  , ⟨cancelAddon, [jint], jvoid⟩
  , ⟨cancelTrain, [jint, jint], jvoid⟩
  , ⟨cancelMorph, [jint], jvoid⟩
  , ⟨cancelResearch, [jint], jvoid⟩
  , ⟨cancelUpgrade, [jint], jvoid⟩
  , ⟨useTech__II, [jint, jint], jvoid⟩
  , ⟨useTech__IIII, [jint, jint, jint, jint], jvoid⟩
  , ⟨useTech__III, [jint, jint, jint], jvoid⟩
  , ⟨drawHealth, [jboolean], jvoid⟩
  , ⟨drawTargets, [jboolean], jvoid⟩
  , ⟨drawIDs, [jboolean], jvoid⟩
  , ⟨enableUserInput, [], jvoid⟩
  , ⟨enablePerfectInformation, [], jvoid⟩
  , ⟨setGameSpeed, [jint], jvoid⟩
  , ⟨drawBox, [jint, jint, jint, jint, jint, jboolean, jboolean], jvoid⟩
  , ⟨drawCircle, [jint, jint, jint, jint, jboolean, jboolean], jvoid⟩
  , ⟨drawLine, [jint, jint, jint, jint, jint, jboolean], jvoid⟩
  , ⟨drawDot, [jint, jint, jint, jboolean], jvoid⟩
  , ⟨drawText, [jint, jint, jstring, jboolean], jvoid⟩
  , ⟨hasCreep, [jint, jint], jboolean⟩
  , ⟨canBuildHere, [jint, jint, jint, jint, jboolean], jboolean⟩
  , ⟨printText, [jstring], jvoid⟩
  , ⟨setCommandOptimizationLevel, [jint], jvoid⟩
  , ⟨isReplayM, [], jboolean⟩ ]

/-- Whether a header method belongs to the command surface: the actuation
entry points, the debug/draw primitives, and the session controls, as
enumerated by the specification.  Pure queries (getters, `hasCreep`,
`canBuildHere`, `isReplay`), the bootstrap `startClient` and the analysis
trigger `analyzeTerrain` are not command-surface entry points. -/
def isCommandSurface : JMethod → Bool
  | .attack__III | .attack__II | .build | .buildAddon | .train | .morph
  | .research | .upgrade | .setRallyPoint__III | .setRallyPoint__II
  | .move | .patrol | .holdPosition | .stop | .follow | .gather
  | .returnCargo | .repair | .burrow | .unburrow | .cloak | .decloak
  | .siege | .unsiege | .lift | .land | .load | .unload
  | .unloadAll__I | .unloadAll__III | .rightClick__III | .rightClick__II
  | .haltConstruction | .cancelConstruction | .cancelAddon | .cancelTrain
  | .cancelMorph | .cancelResearch | .cancelUpgrade
  | .useTech__II | .useTech__IIII | .useTech__III
  | .drawHealth | .drawTargets | .drawIDs
  | .enableUserInput | .enablePerfectInformation | .setGameSpeed
  | .drawBox | .drawCircle | .drawLine | .drawDot | .drawText
  | .printText | .setCommandOptimizationLevel => true
  | _ => false

/-- The header declaration of the three-argument `attack` overload. -/
def attackIIIDecl : JniDecl :=
  ⟨JMethod.attack__III, [JType.jint, JType.jint, JType.jint], JType.jvoid⟩

/-- Modelled from the spec: the error taxonomy of §7 (the header exposes no
error channel; the taxonomy is the specification's). -/
inductive Err
  | InvalidState
  | EngineUnavailable
  | UnknownId
  | InvalidCommand
  | InvalidParameter
  | QueueFull
  | AnalysisUnavailable
  | NotAnalyzed
  | CommandsDisabledInReplay
  | UnknownTypeId
  deriving DecidableEq, Repr

/-- Modelled from the spec: the session lifecycle of the FrameSynchronizer
state machine, `NotStarted → Running → Ended`. -/
inductive Phase
  | NotStarted
  | Running
  | Ended
  deriving DecidableEq, Repr

/-- The ten static type-table categories of the TypeCatalog. -/
inductive Category
  | unitT
  | techT
  | upgradeT
  | weaponT
  | unitSizeT
  | bulletT
  | damageT
  | explosionT
  | unitCommandT
  | orderT
  deriving DecidableEq, Repr

/-- Modelled from the spec: the TypeCatalog, tables loaded once at process
start mapping integer type ids to names. -/
structure Catalog where
  unitNames : List String
  techNames : List String
  upgradeNames : List String
  weaponNames : List String
  unitSizeNames : List String
  bulletNames : List String
  damageNames : List String
  explosionNames : List String
  unitCommandNames : List String
  orderNames : List String
  deriving DecidableEq, Repr

/-- The table a category selects inside the catalog. -/
def tables (cat : Catalog) : Category → List String
  | .unitT => cat.unitNames
  | .techT => cat.techNames
  | .upgradeT => cat.upgradeNames
  | .weaponT => cat.weaponNames
  | .unitSizeT => cat.unitSizeNames
  | .bulletT => cat.bulletNames
  | .damageT => cat.damageNames
  | .explosionT => cat.explosionNames
  | .unitCommandT => cat.unitCommandNames
  | .orderT => cat.orderNames

/-- Modelled from the spec: `typeName(category, id)` — a pure read over the
loaded table, failing with `UnknownTypeId` for an id outside the loaded
range; the catalog is returned unchanged (no mutation after load).
Ids are `Int` because the header passes `jint`. -/
def typeNameSt (cat : Catalog) (c : Category) (id : Int) :
    Except Err String × Catalog :=
  if h : 0 ≤ id ∧ id.toNat < (tables cat c).length then
    (Except.ok ((tables cat c).get ⟨id.toNat, h.2⟩), cat)
  else
    (Except.error Err.UnknownTypeId, cat)

/-- The header entry point `getUnitTypeName` is `typeName` at the unit-type
category. -/
def getUnitTypeNameSt (cat : Catalog) (id : Int) : Except Err String × Catalog :=
  typeNameSt cat Category.unitT id

/-- Modelled from the spec: the Command tagged variant (§3) over the
actuation vocabulary, each case carrying the unit/target identifiers and
positional or type parameters its variant requires.  Draw/debug commands
carry no unit identifier. -/
inductive Command
  | attackUnit (unitId targetId : Int)
  | attackMove (unitId x y : Int)
  | moveCmd (unitId x y : Int)
  | buildCmd (unitId tx ty typeId : Int)
  | trainCmd (unitId typeId : Int)
  | useTechCmd (unitId techId : Int)
  | stopCmd (unitId : Int)
  | drawDotCmd (x y color : Int)
  | printTextCmd (msg : String)
  deriving DecidableEq, Repr

/-- The unit identifiers a command references (acting unit and, when
present, target unit).  Draw/debug commands reference none. -/
def refs : Command → List Int
  | .attackUnit u t => [u, t]
  | .attackMove u _ _ => [u]
  | .moveCmd u _ _ => [u]
  | .buildCmd u _ _ _ => [u]
  | .trainCmd u _ => [u]
  | .useTechCmd u _ => [u]
  | .stopCmd u => [u]
  | .drawDotCmd _ _ _ => []
  | .printTextCmd _ => []

/-- The acting unit of a command, when it has one. -/
def actingUnit : Command → Option Int
  | .attackUnit u _ => some u
  | .attackMove u _ _ => some u
  | .moveCmd u _ _ => some u
  | .buildCmd u _ _ _ => some u
  | .trainCmd u _ => some u
  | .useTechCmd u _ => some u
  | .stopCmd u => some u
  | .drawDotCmd _ _ _ => none
  | .printTextCmd _ => none

/-- Modelled from the spec: parameter validation at submit time —
non-negative positions and type ids known to the TypeCatalog. -/
def paramsOk (cat : Catalog) : Command → Bool
  | .attackMove _ x y => decide (0 ≤ x) && decide (0 ≤ y)
  | .moveCmd _ x y => decide (0 ≤ x) && decide (0 ≤ y)
  | .buildCmd _ tx ty ty2 =>
      decide (0 ≤ tx) && decide (0 ≤ ty) &&
      (decide (0 ≤ ty2) && decide (ty2.toNat < (tables cat Category.unitT).length))
  | .trainCmd _ ty2 =>
      decide (0 ≤ ty2) && decide (ty2.toNat < (tables cat Category.unitT).length)
  | .useTechCmd _ te =>
      decide (0 ≤ te) && decide (te.toNat < (tables cat Category.techT).length)
  | _ => true

/-- A per-frame capture of one unit's mutable attributes; `capturedAt` tags
the frame the record was captured on. -/
structure UnitRec where
  typeId : Int
  ownerId : Int
  x : Int
  y : Int
  hitPoints : Int
  shields : Int
  energy : Int
  capturedAt : Nat
  deriving DecidableEq, Repr

/-- A per-frame capture of one player's mutable attributes. -/
structure PlayerRec where
  race : Int
  minerals : Int
  gas : Int
  supplyUsed : Int
  supplyTotal : Int
  capturedAt : Nat
  deriving DecidableEq, Repr

/-- Modelled from the spec: one complete snapshot — the flat capture of all
visible players and units for a single frame. -/
structure Snapshot where
  frame : Nat
  players : List (Int × PlayerRec)
  units : List (Int × UnitRec)
  deriving DecidableEq, Repr

/-- A live engine unit (internal, mutable engine object). -/
structure LiveUnit where
  uid : Int
  typeId : Int
  ownerId : Int
  x : Int
  y : Int
  hitPoints : Int
  shields : Int
  energy : Int
  deriving DecidableEq, Repr

/-- A live engine player record. -/
structure LivePlayer where
  pid : Int
  race : Int
  minerals : Int
  gas : Int
  supplyUsed : Int
  supplyTotal : Int
  deriving DecidableEq, Repr

/-- Modelled from the spec: the live engine state the proxy fronts — the
mutable world objects, the ordered log of commands the proxy has applied to
the engine, and the engine-reported game-completion flag. -/
structure EngineState where
  units : List LiveUnit
  players : List LivePlayer
  log : List Command
  over : Bool
  deriving DecidableEq, Repr

/-- Capture of the live engine state for frame `n`: every record of the
snapshot is tagged `capturedAt := n`. -/
def buildSnapshot (n : Nat) (e : EngineState) : Snapshot :=
  { frame := n
  , players := e.players.map fun p =>
      (p.pid, ⟨p.race, p.minerals, p.gas, p.supplyUsed, p.supplyTotal, n⟩)
  , units := e.units.map fun u =>
      (u.uid, ⟨u.typeId, u.ownerId, u.x, u.y, u.hitPoints, u.shields, u.energy, n⟩) }

/-- Modelled from the spec: the double-buffered EntitySnapshotStore — two
fixed slots and a published-slot index; readers always dereference the
published slot, `capture` writes the other slot and then swaps the index. -/
structure SnapStore where
  slotA : Snapshot
  slotB : Snapshot
  pubA : Bool
  deriving DecidableEq, Repr

/-- The snapshot a reader currently sees. -/
def published (st : SnapStore) : Snapshot :=
  if st.pubA then st.slotA else st.slotB

/-- Write stage of `capture`: the fresh snapshot goes into the slot that is
not published. -/
def writeSlot (st : SnapStore) (snap : Snapshot) : SnapStore :=
  if st.pubA then { st with slotB := snap } else { st with slotA := snap }

/-- Swap stage of `capture`: the single atomic publish — flip the
published-slot index. -/
def swapPub (st : SnapStore) : SnapStore :=
  { st with pubA := !st.pubA }

/-- Modelled from the spec: `capture()` for frame `n` — write the fresh
snapshot into the non-published slot, then swap. -/
def captureStore (n : Nat) (e : EngineState) (st : SnapStore) : SnapStore :=
  swapPub (writeSlot st (buildSnapshot n e))

/-- Unit list read against the published snapshot (`getUnits`). -/
def unitsQ (st : SnapStore) : List (Int × UnitRec) :=
  (published st).units

/-- Per-player read against the published snapshot (`getPlayerUpdate`);
fails with `UnknownId` when the id is absent from the current snapshot. -/
def playerInfoQ (st : SnapStore) (pid : Int) : Except Err PlayerRec :=
  match (published st).players.find? (fun p => decide (p.1 = pid)) with
  | some p => Except.ok p.2
  | none => Except.error Err.UnknownId

/-- Per-unit read against the published snapshot (`getUnits` row). -/
def unitInfoQ (st : SnapStore) (uid : Int) : Except Err UnitRec :=
  match (published st).units.find? (fun u => decide (u.1 = uid)) with
  | some u => Except.ok u.2
  | none => Except.error Err.UnknownId

/-- Modelled from the spec: the whole proxy state — session phase, frame
counter, replay flag, the owned engine handle, the double-buffered snapshot
store, the pending command queue and the loaded type catalog. -/
structure ProxyState where
  phase : Phase
  frame : Nat
  replay : Bool
  engine : EngineState
  store : SnapStore
  queue : List Command
  catalog : Catalog
  deriving DecidableEq, Repr

/-- The `getGameFrame` read: the current Frame counter, side-effect-free. -/
def getGameFrameQ (s : ProxyState) : Nat :=
  s.frame

/-- The `isReplay` read: whether the active session is a passive replay. -/
def isReplayQ (s : ProxyState) : Bool :=
  s.replay

/-- Modelled from the spec: `advance()` — steps the simulation by exactly
one frame; only valid in `Running`, failing with `InvalidState` (state
unchanged) in `NotStarted` or `Ended`; the session transitions to `Ended`
when the engine reports game completion. -/
def advanceSt (s : ProxyState) : Except Err Unit × ProxyState :=
  match s.phase with
  | Phase.Running =>
      (Except.ok (),
       { s with frame := s.frame + 1
              , phase := if s.engine.over then Phase.Ended else Phase.Running })
  | _ => (Except.error Err.InvalidState, s)

/-- `capture()` at proxy level: rebuild the snapshot store for the current
frame from the live engine. -/
def captureSt (s : ProxyState) : ProxyState :=
  { s with store := captureStore s.frame s.engine s.store }

/-- Unit ids present in the most recently published snapshot. -/
def snapIds (s : ProxyState) : List Int :=
  (published s.store).units.map Prod.fst

/-- Modelled from the spec: the per-frame queue cap an implementation
should impose (`QueueFull` past the cap). -/
def queueCap : Nat := 1024

/-- Modelled from the spec: `submit(command)` — rejected with
`CommandsDisabledInReplay` in a replay session; rejected with
`InvalidCommand` when a referenced unit id is absent from the most recently
published snapshot; rejected with `InvalidParameter` on out-of-range
parameters; rejected with `QueueFull` past the cap; otherwise appended to
the pending queue.  A rejected command is never enqueued. -/
def submitSt (s : ProxyState) (c : Command) : Except Err Unit × ProxyState :=
  if s.replay then
    (Except.error Err.CommandsDisabledInReplay, s)
  else if ¬ (refs c).all (fun i => decide (i ∈ snapIds s)) then
    (Except.error Err.InvalidCommand, s)
  else if ¬ paramsOk s.catalog c then
    (Except.error Err.InvalidParameter, s)
  else if queueCap ≤ s.queue.length then
    (Except.error Err.QueueFull, s)
  else
    (Except.ok (), { s with queue := s.queue ++ [c] })

/-- Whether a queued command is still valid against the live engine at
flush time: every referenced unit still exists among the live units. -/
def liveValid (e : EngineState) (c : Command) : Bool :=
  (refs c).all fun i => decide (i ∈ e.units.map LiveUnit.uid)

/-- The per-command outcome a flush reports. -/
inductive Outcome
  | applied (c : Command)
  | dropped (c : Command)
  deriving DecidableEq, Repr

/-- Modelled from the spec: `flush()` — applies each queued command to the
live engine in submission order (FIFO, no reordering); a command whose
referenced unit has vanished between submit and flush is dropped and
reported as a distinct non-fatal outcome, never retried; the queue is
emptied.  Flush itself never fails. -/
def flushSt (s : ProxyState) : List Outcome × ProxyState :=
  ((s.queue.map fun c =>
      if liveValid s.engine c then Outcome.applied c else Outcome.dropped c),
   { s with queue := []
          , engine := { s.engine with
              log := s.engine.log ++ s.queue.filter (liveValid s.engine) } })

/-- Iterated `advance()`: the proxy state after `n` successive calls
(failed calls leave the state unchanged). -/
def advanceIter (s : ProxyState) : Nat → ProxyState
  | 0 => s
  | n + 1 => (advanceSt (advanceIter s n)).2

/-- The first `n` calls of a run of successive `advance()` calls all happen
while the session is `Running`. -/
def allRunning (s : ProxyState) (n : Nat) : Prop :=
  ∀ k, k < n → (advanceIter s k).phase = Phase.Running

/-- A snapshot is internally consistent with a single frame: every player
and unit record it holds is tagged with the snapshot's own frame. -/
def snapCoherent (sn : Snapshot) : Prop :=
  (∀ p ∈ sn.players, p.2.capturedAt = sn.frame) ∧
  (∀ u ∈ sn.units, u.2.capturedAt = sn.frame)

/-- Both slots of the store are internally consistent. -/
def storeCoherent (st : SnapStore) : Prop :=
  snapCoherent st.slotA ∧ snapCoherent st.slotB

/-- Static map data, loaded by the engine (external collaborator). -/
structure MapData where
  width : Nat
  height : Nat
  mapName : String
  deriving DecidableEq, Repr

/-- The opaque precomputed terrain graph the core consumes: regions,
chokepoints, polygons and base locations. -/
structure TerrainData where
  regionIds : List Int
  chokes : List (Int × Int)
  polys : List (Int × List (Int × Int))
  bases : List (Int × Int)
  deriving DecidableEq, Repr

/-- Modelled from the spec: the TerrainModel state — the loaded map, if
any, and the analysis result once `analyze()` has completed. -/
structure TerrainState where
  mapLoaded : Option MapData
  analyzed : Option TerrainData
  deriving DecidableEq, Repr

/-- Modelled from the spec: `analyze()` (the header's `analyzeTerrain`) —
fails with `AnalysisUnavailable` before the map is loaded; a no-op when a
successful analysis already completed; otherwise runs the external
terrain-analysis algorithm `alg` once and stores its result.  `alg` is the
out-of-scope collaborator, passed as a parameter. -/
def analyzeSt (alg : MapData → TerrainData) (t : TerrainState) :
    Except Err Unit × TerrainState :=
  match t.mapLoaded with
  | none => (Except.error Err.AnalysisUnavailable, t)
  | some m =>
      match t.analyzed with
      | some _ => (Except.ok (), t)
      | none => (Except.ok (), { t with analyzed := some (alg m) })

/-- `regions()` read: fails with `NotAnalyzed` before analysis. -/
def regionsQ (t : TerrainState) : Except Err (List Int) :=
  match t.analyzed with
  | none => Except.error Err.NotAnalyzed
  | some d => Except.ok d.regionIds

/-- `chokePoints()` read: fails with `NotAnalyzed` before analysis. -/
def chokePointsQ (t : TerrainState) : Except Err (List (Int × Int)) :=
  match t.analyzed with
  | none => Except.error Err.NotAnalyzed
  | some d => Except.ok d.chokes

/-- `polygon(regionId)` read: fails with `NotAnalyzed` before analysis. -/
def polygonQ (t : TerrainState) (rid : Int) : Except Err (List (Int × Int)) :=
  match t.analyzed with
  | none => Except.error Err.NotAnalyzed
  | some d =>
      Except.ok (((d.polys.find? fun p => decide (p.1 = rid)).map Prod.snd).getD [])

/-- A small concrete catalog used to evaluate the development. -/
def cat0 : Catalog :=
  ⟨["Marine", "Firebat"], ["StimPacks"], [], [], [], [], [], [], [], []⟩

/-- A concrete live unit with id 7. -/
def unit7 : LiveUnit := ⟨7, 0, 1, 10, 20, 40, 0, 0⟩

/-- A concrete live unit with id 99. -/
def unit99 : LiveUnit := ⟨99, 0, 2, 30, 40, 25, 0, 0⟩

/-- A concrete engine state holding units 7 and 99. -/
def eng0 : EngineState :=
  ⟨[unit7, unit99], [⟨1, 0, 50, 0, 4, 8⟩], [], false⟩

/-- A concrete published snapshot of `eng0` at frame 10. -/
def snap0 : Snapshot := buildSnapshot 10 eng0

/-- A concrete coherent snapshot store publishing `snap0`. -/
def store0 : SnapStore := ⟨snap0, snap0, true⟩

/-- A concrete running proxy state at frame 10. -/
def running0 : ProxyState :=
  ⟨Phase.Running, 10, false, eng0, store0, [], cat0⟩

/-- The same session after the engine reported game completion. -/
def endedState : ProxyState := { running0 with phase := Phase.Ended }

/-- The same session as a passive replay. -/
def replayState : ProxyState := { running0 with replay := true }

/-- A concrete stand-in for the external terrain-analysis algorithm. -/
def alg0 : MapData → TerrainData :=
  fun _ => ⟨[1, 2], [(1, 2)], [(1, [(0, 0), (4, 0)])], [(3, 4)]⟩

/-- A terrain state with a loaded map and no analysis yet. -/
def terrain0 : TerrainState := ⟨some ⟨64, 64, "Astral Balance"⟩, none⟩

/-- C10: every actuation and session-control entry point of the JNI header
(the command surface: attack, move, build, useTech, printText and the rest)
is declared with return type void, so the interface offers no return-value
channel through which a per-command outcome could reach the caller. -/
theorem command_surface_returns_void (d : JniDecl) (hd : d ∈ headerDecls)
    (hc : isCommandSurface d.name = true) : d.ret = JType.jvoid := by
  have hall : ∀ x ∈ headerDecls, isCommandSurface x.name = true →
      x.ret = JType.jvoid := by decide
  exact hall d hd hc

/-- Witness for C10 at the three-argument `attack` overload. -/
theorem command_surface_returns_void_witness :
    attackIIIDecl ∈ headerDecls ∧ isCommandSurface attackIIIDecl.name = true ∧
      attackIIIDecl.ret = JType.jvoid :=
  ⟨by decide, by decide,
   command_surface_returns_void attackIIIDecl (by decide) (by decide)⟩

/-- C7: `advance()` outside `Running` (in `NotStarted` or `Ended`, in
particular after the engine reports game over) fails with `InvalidState`
and leaves the state — in particular the value `currentFrame()` returns —
unchanged. -/
theorem advance_outside_running_invalid_state (s : ProxyState)
    (h : s.phase = Phase.NotStarted ∨ s.phase = Phase.Ended) :
    advanceSt s = (Except.error Err.InvalidState, s) ∧
      getGameFrameQ (advanceSt s).2 = getGameFrameQ s := by
  rcases h with h | h <;>
    simp [advanceSt, h, getGameFrameQ]

/-- Witness for C7 on the concrete ended session. -/
theorem advance_outside_running_invalid_state_witness :
    advanceSt endedState = (Except.error Err.InvalidState, endedState) ∧
      getGameFrameQ (advanceSt endedState).2 = getGameFrameQ endedState :=
  advance_outside_running_invalid_state endedState (Or.inr rfl)

/-- C6: `typeName(category, id)` fails with `UnknownTypeId` for an id
outside the loaded table's range, returns the loaded name for an id inside
the range, and never mutates the catalog. -/
theorem typeName_range_behavior (cat : Catalog) (c : Category) (id : Int) :
    (¬ (0 ≤ id ∧ id.toNat < (tables cat c).length) →
      typeNameSt cat c id = (Except.error Err.UnknownTypeId, cat)) ∧
    (∀ h : 0 ≤ id ∧ id.toNat < (tables cat c).length,
      typeNameSt cat c id =
        (Except.ok ((tables cat c).get ⟨id.toNat, h.2⟩), cat)) ∧
    (typeNameSt cat c id).2 = cat := by
  refine ⟨fun h => ?_, fun h => ?_, ?_⟩
  · unfold typeNameSt
    rw [dif_neg h]
  · unfold typeNameSt
    rw [dif_pos h]
  · unfold typeNameSt
    split <;> rfl

/-- Witness for C6: id 999999 is outside the two-entry unit table of
`cat0`, id 0 is inside it. -/
theorem typeName_range_behavior_witness :
    typeNameSt cat0 Category.unitT 999999 =
      (Except.error Err.UnknownTypeId, cat0) ∧
    (typeNameSt cat0 Category.unitT 0).1 = Except.ok "Marine" := by
  refine ⟨(typeName_range_behavior cat0 Category.unitT 999999).1 (by decide), ?_⟩
  rw [(typeName_range_behavior cat0 Category.unitT 0).2.1 ⟨by decide, by decide⟩]
  rfl

/-- C5: a second `analyze()` (the header's `analyzeTerrain`) after a
successful analysis in the same session is a no-op: it succeeds, leaves the
terrain state unchanged, and the region, chokepoint and polygon query
results after the second call are identical to the results after the
first. -/
theorem analyze_idempotent (alg : MapData → TerrainData) (t : TerrainState)
    (h : (analyzeSt alg t).1 = Except.ok ()) :
    analyzeSt alg (analyzeSt alg t).2 = (Except.ok (), (analyzeSt alg t).2) ∧
    regionsQ (analyzeSt alg (analyzeSt alg t).2).2 =
      regionsQ (analyzeSt alg t).2 ∧
    chokePointsQ (analyzeSt alg (analyzeSt alg t).2).2 =
      chokePointsQ (analyzeSt alg t).2 ∧
    ∀ rid, polygonQ (analyzeSt alg (analyzeSt alg t).2).2 rid =
      polygonQ (analyzeSt alg t).2 rid := by
  have hfix : analyzeSt alg (analyzeSt alg t).2 = (Except.ok (), (analyzeSt alg t).2) := by
    cases hm : t.mapLoaded with
    | none => simp [analyzeSt, hm] at h
    | some m =>
        cases ha : t.analyzed with
        | some d => simp [analyzeSt, hm, ha]
        | none => simp [analyzeSt, hm, ha]
  refine ⟨hfix, ?_, ?_, fun rid => ?_⟩ <;> rw [hfix]

/-- Witness for C5 on the concrete loaded-but-unanalyzed terrain state. -/
theorem analyze_idempotent_witness :
    (analyzeSt alg0 terrain0).1 = Except.ok () ∧
    analyzeSt alg0 (analyzeSt alg0 terrain0).2 =
      (Except.ok (), (analyzeSt alg0 terrain0).2) :=
  ⟨rfl, (analyze_idempotent alg0 terrain0 rfl).1⟩

/-- After `n` successive `advance()` calls that all happen in `Running`,
the frame counter has advanced by exactly `n`. -/
theorem advanceIter_frame_eq (s : ProxyState) :
    ∀ n, allRunning s n → (advanceIter s n).frame = s.frame + n := by
  intro n
  induction n with
  | zero => intro _; rfl
  | succ n ih =>
      intro h
      have hrun : (advanceIter s n).phase = Phase.Running :=
        h n (Nat.lt_succ_self n)
      have hprev : (advanceIter s n).frame = s.frame + n :=
        ih fun k hk => h k (Nat.lt_succ_of_lt hk)
      show (advanceSt (advanceIter s n)).2.frame = s.frame + (n + 1)
      unfold advanceSt
      rw [hrun]
      simp [hprev]
      omega

/-- C1: across any run of successive `advance()` calls made while the
session is `Running`, the value `currentFrame()` (the header's
`getGameFrame`) returns increases by exactly 1 per call, is strictly
increasing (so it never decreases), and no frame value is ever repeated
within the run. -/
theorem currentFrame_strictly_increasing (s : ProxyState) (n : Nat)
    (h : allRunning s n) :
    (∀ k, k ≤ n → getGameFrameQ (advanceIter s k) = getGameFrameQ s + k) ∧
    (∀ k, k < n → getGameFrameQ (advanceIter s (k + 1)) =
      getGameFrameQ (advanceIter s k) + 1) ∧
    (∀ j k, j < k → k ≤ n →
      getGameFrameQ (advanceIter s j) < getGameFrameQ (advanceIter s k)) ∧
    (∀ j k, j ≤ n → k ≤ n →
      getGameFrameQ (advanceIter s j) = getGameFrameQ (advanceIter s k) →
        j = k) := by
  have key : ∀ k, k ≤ n → (advanceIter s k).frame = s.frame + k := by
    intro k hk
    exact advanceIter_frame_eq s k fun j hj => h j (Nat.lt_of_lt_of_le hj hk)
  refine ⟨fun k hk => key k hk, fun k hk => ?_, fun j k hjk hk => ?_,
    fun j k hj hk heq => ?_⟩
  · have h1 := key k (Nat.le_of_lt hk)
    have h2 := key (k + 1) hk
    simp only [getGameFrameQ]
    omega
  · have h1 := key j (Nat.le_of_lt (Nat.lt_of_lt_of_le hjk hk))
    have h2 := key k hk
    simp only [getGameFrameQ]
    omega
  · have h1 := key j hj
    have h2 := key k hk
    simp only [getGameFrameQ] at heq
    omega

/-- Witness for C1: three successful advances from the concrete running
state reach frame 13 without repeating a frame. -/
theorem currentFrame_strictly_increasing_witness :
    allRunning running0 3 ∧
      getGameFrameQ (advanceIter running0 3) = getGameFrameQ running0 + 3 :=
  ⟨by unfold allRunning; decide,
   (currentFrame_strictly_increasing running0 3 (by unfold allRunning; decide)).1 3
    (Nat.le_refl 3)⟩

/-- C2: in a live (non-replay) session, submitting a command that
references a unit id absent from the most recently published snapshot fails
with `InvalidCommand`, the command is not enqueued, and the engine log is
untouched — the command never reaches the engine. -/
theorem submit_unknown_unit_rejected (s : ProxyState) (c : Command) (i : Int)
    (hr : s.replay = false) (hi : i ∈ refs c) (habs : i ∉ snapIds s) :
    submitSt s c = (Except.error Err.InvalidCommand, s) ∧
      (submitSt s c).2.queue = s.queue ∧
      (submitSt s c).2.engine.log = s.engine.log := by
  have hpi : decide (i ∈ snapIds s) = false := decide_eq_false habs
  have hall : ¬ ((refs c).all (fun j => decide (j ∈ snapIds s)) = true) := by
    intro hcontra
    have hdec := List.all_eq_true.mp hcontra i hi
    rw [hpi] at hdec
    exact Bool.false_ne_true hdec
  have heq : submitSt s c = (Except.error Err.InvalidCommand, s) := by
    unfold submitSt
    rw [if_neg (by simp [hr]), if_pos hall]
  exact ⟨heq, by rw [heq], by rw [heq]⟩

/-- Witness for C2: unit id 999 is absent from the published snapshot of
the concrete running state. -/
theorem submit_unknown_unit_rejected_witness :
    submitSt running0 (Command.moveCmd 999 100 200) =
      (Except.error Err.InvalidCommand, running0) :=
  (submit_unknown_unit_rejected running0 (Command.moveCmd 999 100 200) 999
    rfl (by decide) (by decide)).1

/-- C8: in a passive replay session, every submit of any command fails with
`CommandsDisabledInReplay` and leaves the state unchanged, so no
consumer-issued command is ever enqueued or applied to the engine; and
`isReplay()` keeps returning true across every proxy operation. -/
theorem replay_rejects_all_commands (s : ProxyState) (c : Command)
    (h : s.replay = true) :
    submitSt s c = (Except.error Err.CommandsDisabledInReplay, s) ∧
    isReplayQ s = true ∧
    isReplayQ (advanceSt s).2 = true ∧
    isReplayQ (submitSt s c).2 = true ∧
    isReplayQ (captureSt s) = true ∧
    isReplayQ (flushSt s).2 = true := by
  have hsub : submitSt s c = (Except.error Err.CommandsDisabledInReplay, s) := by
    unfold submitSt
    rw [if_pos h]
  refine ⟨hsub, h, ?_, by rw [hsub]; exact h, h, h⟩
  unfold advanceSt
  cases s.phase <;> simp [isReplayQ, h]

/-- Witness for C8 on the concrete replay session. -/
theorem replay_rejects_all_commands_witness :
    submitSt replayState (Command.moveCmd 7 100 200) =
      (Except.error Err.CommandsDisabledInReplay, replayState) ∧
      isReplayQ replayState = true :=
  ⟨(replay_rejects_all_commands replayState (Command.moveCmd 7 100 200) rfl).1,
   (replay_rejects_all_commands replayState (Command.moveCmd 7 100 200) rfl).2.1⟩

/-- C3: against a coherent store, every read of the published snapshot
(unit list, per-unit attributes, player info) returns data tagged with
exactly the published snapshot's single frame value; the write stage of a
capture for frame `n` leaves the published snapshot untouched (so a reader
still sees the previous frame complete), and after the swap the reader sees
frame `n` complete; coherence is preserved, so no read ever mixes
attributes from two different frames. -/
theorem snapshot_reads_single_frame (st : SnapStore) (n : Nat)
    (e : EngineState) (h : storeCoherent st) :
    (∀ u ∈ unitsQ st, u.2.capturedAt = (published st).frame) ∧
    (∀ pid r, playerInfoQ st pid = Except.ok r →
      r.capturedAt = (published st).frame) ∧
    (∀ uid r, unitInfoQ st uid = Except.ok r →
      r.capturedAt = (published st).frame) ∧
    published (writeSlot st (buildSnapshot n e)) = published st ∧
    published (captureStore n e st) = buildSnapshot n e ∧
    snapCoherent (buildSnapshot n e) ∧
    storeCoherent (captureStore n e st) := by
  have hpub : snapCoherent (published st) := by
    unfold published
    split
    · exact h.1
    · exact h.2
  have hbuild : snapCoherent (buildSnapshot n e) := by
    constructor
    · intro p hp
      simp only [buildSnapshot, List.mem_map] at hp
      obtain ⟨q, _, hq⟩ := hp
      rw [← hq]
      rfl
    · intro u hu
      simp only [buildSnapshot, List.mem_map] at hu
      obtain ⟨q, _, hq⟩ := hu
      rw [← hq]
      rfl
  refine ⟨fun u hu => hpub.2 u hu, ?_, ?_, ?_, ?_, hbuild, ?_⟩
  · intro pid r hfind
    unfold playerInfoQ at hfind
    cases hfd : (published st).players.find? (fun p => decide (p.1 = pid)) with
    | none => rw [hfd] at hfind; exact absurd hfind (by simp)
    | some p =>
        rw [hfd] at hfind
        have hmem := List.mem_of_find?_eq_some hfd
        have hr : p.2 = r := by injection hfind
        rw [← hr]
        exact hpub.1 p hmem
  · intro uid r hfind
    unfold unitInfoQ at hfind
    cases hfd : (published st).units.find? (fun u => decide (u.1 = uid)) with
    | none => rw [hfd] at hfind; exact absurd hfind (by simp)
    | some u =>
        rw [hfd] at hfind
        have hmem := List.mem_of_find?_eq_some hfd
        have hr : u.2 = r := by injection hfind
        rw [← hr]
        exact hpub.2 u hmem
  · cases hb : st.pubA <;> simp [published, writeSlot, hb]
  · cases hb : st.pubA <;> simp [published, captureStore, swapPub, writeSlot, hb]
  · cases hb : st.pubA
    · have hcap : captureStore n e st =
          ⟨buildSnapshot n e, st.slotB, true⟩ := by
        simp [captureStore, swapPub, writeSlot, hb]
      rw [hcap]
      exact ⟨hbuild, h.2⟩
    · have hcap : captureStore n e st =
          ⟨st.slotA, buildSnapshot n e, false⟩ := by
        simp [captureStore, swapPub, writeSlot, hb]
      rw [hcap]
      exact ⟨h.1, hbuild⟩

/-- Witness for C3: capturing frame 11 over the concrete coherent store
publishes exactly the frame-11 snapshot. -/
theorem snapshot_reads_single_frame_witness :
    storeCoherent store0 ∧
      published (captureStore 11 eng0 store0) = buildSnapshot 11 eng0 :=
  ⟨by unfold storeCoherent snapCoherent; decide,
   (snapshot_reads_single_frame store0 11 eng0
     (by unfold storeCoherent snapCoherent; decide)).2.2.2.2.1⟩

/-- C4: `flush()` applies the queued commands to the engine in exactly the
submission order: a successful `submit` appends to the back of the queue,
flushing never reorders (the applied sequence is the order-preserving
filter of the queue by flush-time validity), and when every queued command
is still valid the engine receives precisely the queue, in order — A then B
then C yields application order A, B, C. -/
theorem flush_fifo_order (s : ProxyState)
    (h : ∀ c ∈ s.queue, liveValid s.engine c = true) :
    (flushSt s).2.engine.log = s.engine.log ++ s.queue ∧
    (∀ t : ProxyState, ∀ c, (submitSt t c).1 = Except.ok () →
      (submitSt t c).2.queue = t.queue ++ [c]) ∧
    (∀ t : ProxyState,
      (flushSt t).2.engine.log =
        t.engine.log ++ t.queue.filter (liveValid t.engine)) := by
  refine ⟨?_, ?_, fun t => rfl⟩
  · show s.engine.log ++ s.queue.filter (liveValid s.engine) =
      s.engine.log ++ s.queue
    rw [List.filter_eq_self.mpr h]
  · intro t c hok
    unfold submitSt at hok ⊢
    split_ifs at hok ⊢
    simp_all

/-- A concrete state with three pending commands, submitted in order. -/
def queued0 : ProxyState :=
  { running0 with
      queue := [Command.moveCmd 7 100 200, Command.stopCmd 99,
        Command.attackUnit 7 99] }

/-- Witness for C4: the three queued commands reach the engine log in
submission order. -/
theorem flush_fifo_order_witness :
    (∀ c ∈ queued0.queue, liveValid queued0.engine c = true) ∧
      (flushSt queued0).2.engine.log = queued0.engine.log ++ queued0.queue :=
  ⟨by decide, (flush_fifo_order queued0 (by decide)).1⟩

/-- C9: a queued command whose referenced unit has vanished from the live
engine between submit and flush is dropped by `flush()` and reported as a
distinct non-fatal outcome: the dropped command is never applied (the
acting unit receives no order from it), the remaining valid commands are
still applied in submission order, the flush itself completes, and the
queue is emptied so the command is never retried. -/
theorem flush_drops_vanished (s : ProxyState) (c : Command)
    (h1 : c ∈ s.queue) (h2 : liveValid s.engine c = false) :
    Outcome.dropped c ∈ (flushSt s).1 ∧
    Outcome.applied c ∉ (flushSt s).1 ∧
    c ∉ s.queue.filter (liveValid s.engine) ∧
    (flushSt s).2.engine.log =
      s.engine.log ++ s.queue.filter (liveValid s.engine) ∧
    (flushSt s).2.queue = [] := by
  refine ⟨?_, ?_, ?_, rfl, rfl⟩
  · show Outcome.dropped c ∈ s.queue.map fun d =>
      if liveValid s.engine d then Outcome.applied d else Outcome.dropped d
    refine List.mem_map.mpr ⟨c, h1, ?_⟩
    rw [if_neg (by simp [h2])]
  · intro hmem
    have hmem2 : Outcome.applied c ∈ s.queue.map fun d =>
        if liveValid s.engine d then Outcome.applied d else Outcome.dropped d :=
      hmem
    obtain ⟨a, _, heq⟩ := List.mem_map.mp hmem2
    by_cases hv : liveValid s.engine a = true
    · rw [if_pos hv] at heq
      have ha : a = c := by injection heq
      rw [ha, h2] at hv
      exact Bool.false_ne_true hv
    · rw [if_neg hv] at heq
      exact Outcome.noConfusion heq
  · intro hmem
    have hv := (List.mem_filter.mp hmem).2
    rw [h2] at hv
    exact Bool.false_ne_true hv

/-- A concrete state where unit 99 was in the snapshot at submit time but
has vanished from the live engine before the flush. -/
def vanished9 : ProxyState :=
  { running0 with
      engine := { eng0 with units := [unit7] }
      queue := [Command.attackUnit 7 99] }

/-- Witness for C9: the attack command of unit 7 on unit 99 is reported
dropped when unit 99 has vanished before the flush. -/
theorem flush_drops_vanished_witness :
    Command.attackUnit 7 99 ∈ vanished9.queue ∧
      Outcome.dropped (Command.attackUnit 7 99) ∈ (flushSt vanished9).1 :=
  ⟨by decide,
   (flush_drops_vanished vanished9 (Command.attackUnit 7 99)
     (by decide) (by decide)).1⟩

end JBW
